import Mathlib

/-
  Verification development for the GearNet pre-training trainer
  (src/trainers/pt_trainer.py, class PtTrainer).

  The trainer orchestrates synchronous distributed data-parallel training:
  a gradient-accumulation controller around each backward pass, per-epoch
  metric aggregation over a collective all-gather, an early-stopping /
  checkpoint decision taken in validate_and_save, and process-group
  teardown when the epoch loop exits.

  Shallow embedding conventions: validation losses are rationals; opaque
  collaborator state (model parameters, optimizer state, parsed run
  configuration) is represented by abstract numeric identifiers; the
  side-effecting parts of the loop are embedded as traces of events.
-/

namespace GearNet

/-- Gradient-accumulation controller, from pt_trainer.py line 193:
the backward pass runs inside the no_sync (synchronization-suppressing)
scope exactly when (idx + 1) mod accumulation is nonzero; otherwise the
default (synchronizing) nullcontext is used. -/
def grad_no_sync (accumulation idx : Nat) : Bool :=
  (idx + 1) % accumulation != 0

/-- Optimizer-update decision, from pt_trainer.py lines 204-206:
optimizer.step followed by optimizer.zero_grad runs exactly when
(idx + 1) mod accumulation is zero. -/
def optimizer_update (accumulation idx : Nat) : Bool :=
  (idx + 1) % accumulation == 0

/-- Direction of the early-stopping comparison; validate_and_save passes
the string literal lower (pt_trainer.py line 298). -/
inductive BetterOrder
  | lower
  | higher
deriving DecidableEq

/-- Hidden state of the early-stopping helper: the best validation score
seen so far (a function attribute, absent before the first call) and the
count of consecutive non-improving epochs. -/
structure ESState where
  best : Option Rat
  numRuns : Nat
deriving DecidableEq

/-- A score a is better than b when it is strictly lower (lower-is-better)
or strictly higher (higher-is-better). -/
def is_better : BetterOrder → Rat → Rat → Bool
  | BetterOrder.lower, a, b => decide (a < b)
  | BetterOrder.higher, a, b => decide (b < a)

/-- Modelled from the spec: should_stop_early lives in utils/trainer_utils.py,
which is not under src/; only its call site in PtTrainer.validate_and_save is.
Per the spec (sections 3 and 4.5): on a strictly better score, or when no
prior best exists, the best-seen score is updated and the patience counter
resets to 0; otherwise the counter increments, and the helper reports stop
exactly when the counter exceeds the configured patience threshold and the
threshold is not 0 (0 means stopping-by-patience is disabled). Returns the
stop flag together with the updated hidden state. -/
def should_stop_early (patience : Nat) (validLoss : Rat) (order : BetterOrder)
    (s : ESState) : Bool × ESState :=
  match s.best with
  | none => (false, { best := some validLoss, numRuns := 0 })
  | some b =>
    if is_better order validLoss b then
      (false, { best := some validLoss, numRuns := 0 })
    else
      ((patience != 0) && decide (patience < s.numRuns + 1),
       { best := some b, numRuns := s.numRuns + 1 })

/-- The dictionary torch.save persists, from pt_trainer.py lines 316-326:
exactly the four keys model_state_dict, optimizer_state_dict, epochs, args.
Opaque collaborator values are abstract numeric identifiers. -/
structure CkptRecord where
  model_state_dict : Nat
  optimizer_state_dict : Nat
  epochs : Nat
  args : Nat
deriving DecidableEq

/-- Observable events of the trainer, used to embed the side-effecting
control flow: collective operations (dist.barrier, the all-gather of
worker-local loss lists), the invocation of the early-stopping helper,
a checkpoint write with its path and contents, process-group destruction
(dist.destroy_process_group) and the final deliberate sys.exit message. -/
inductive Ev
  | barrier
  | allGather
  | helperCall
  | save (path : String) (ckpt : CkptRecord)
  | cleanup
  | exitMsg
deriving DecidableEq

/-- Checkpoint path, from pt_trainer.py line 313 / 325:
os.path.join(save_dir, exp_name_savePfx_best.pt). -/
def checkpoint_path (save_dir exp_name save_pfx : String) : String :=
  save_dir ++ "/" ++ exp_name ++ "_" ++ save_pfx ++ "_best.pt"

/-- The slice of the run configuration the embedded trainer reads, from
PtTrainer.__init__ (pt_trainer.py lines 34-60) and self.args fields used in
train / validate_and_save. model_state, optimizer_state and args_id stand
for the opaque state dictionaries and parsed-argument object. -/
structure Cfg where
  save_dir : String
  exp_name : String
  save_pfx : String
  patience : Nat
  accumulation : Nat
  n_epochs : Nat
  model_state : Nat
  optimizer_state : Nat
  args_id : Nat
deriving DecidableEq

/-- Collective events of PtTrainer.validate (pt_trainer.py lines 264-266):
dist.barrier, then the all-gather of worker-local loss lists. -/
def validate_events : List Ev := [Ev.barrier, Ev.allGather]

/-- Result of one rank executing validate_and_save for one epoch: its event
trace, the returned stop flag, whether this rank wrote a checkpoint, and the
early-stopping helper state after the call. -/
structure VSResult where
  events : List Ev
  shouldStop : Bool
  saves : Bool
  state : ESState
deriving DecidableEq

/-- PtTrainer.validate_and_save (pt_trainer.py lines 287-338), for one rank:
validate produces the (already globally reduced) validation loss; line 298
invokes should_stop_early with order lower on every rank; line 300 reads the
helper best attribute after the call; lines 302-303 force the stop flag to
False when patience is 0; line 305 barriers; lines 307-331 let only the
MASTER rank write the checkpoint, and only when the recorded best is absent
or equals the current validation loss. -/
def validate_and_save (cfg : Cfg) (epoch : Nat) (validLoss : Rat)
    (isMaster : Bool) (s : ESState) : VSResult :=
  let r := should_stop_early cfg.patience validLoss BetterOrder.lower s
  let prevBest := r.2.best
  let stop := if cfg.patience == 0 then false else r.1
  let doSave := isMaster && (prevBest.isNone || prevBest == some validLoss)
  let ckpt : CkptRecord :=
    { model_state_dict := cfg.model_state
      optimizer_state_dict := cfg.optimizer_state
      epochs := epoch
      args := cfg.args_id }
  { events := validate_events ++ [Ev.helperCall, Ev.barrier] ++
      (if doSave then
        [Ev.save (checkpoint_path cfg.save_dir cfg.exp_name cfg.save_pfx) ckpt]
      else []),
    shouldStop := stop,
    saves := doSave,
    state := r.2 }

/-- Modelled from the spec: the metric aggregation helpers all_gather_list /
all_gather_stats (utils/ddp_utils.py) and PtMetric.return_log_dict_for_ddp
(metrics, not under src/). Per spec section 4.4, the gathered worker-local
loss sequences merge into one global statistic: the mean over all workers
and all steps. Every rank receives the same gathered lists, hence the same
global value. -/
def reduce_global (locals : List (List Rat)) : Rat :=
  (locals.flatten.sum) / ((locals.flatten.length : Rat))

/-- MASTER predicate, from pt_trainer.py line 162: the coordinating worker
is the rank equal to world_size - 1. -/
def is_master (rank world_size : Nat) : Bool :=
  rank == world_size - 1

/-- One rank running the epoch-end decision: the validation loss it feeds to
validate_and_save is the globally reduced statistic of all workers' local
loss lists (never its own partial list), per pt_trainer.py lines 262-267
and 297. -/
def rank_validate_and_save (cfg : Cfg) (epoch : Nat) (locals : List (List Rat))
    (rank world_size : Nat) (s : ESState) : VSResult :=
  validate_and_save cfg epoch (reduce_global locals) (is_master rank world_size) s

/-- Running validate_and_save over a sequence of per-epoch (already reduced)
validation losses, threading the helper state, starting at the given epoch
index; returns the per-epoch results in order. -/
def run_validate_epochs (cfg : Cfg) (isMaster : Bool) :
    List Rat → Nat → ESState → List VSResult
  | [], _, _ => []
  | l :: ls, epoch, s =>
    let r := validate_and_save cfg epoch l isMaster s
    r :: run_validate_epochs cfg isMaster ls (epoch + 1) r.state

/-- Collective events of the training phase of one epoch, from pt_trainer.py
lines 215-217: dist.barrier, then the all-gather of the epoch loss list. -/
def train_phase_events : List Ev := [Ev.barrier, Ev.allGather]

/-- The epoch loop of PtTrainer.train (pt_trainer.py lines 180-233), for one
rank, as an event trace: each epoch runs the training phase (barrier and
all-gather at its end), then validate_and_save; the loop breaks when the
returned stop flag is set or the configured maximum epoch is reached.
scores gives each epoch its globally reduced validation loss; fuel is the
number of remaining loop iterations (the loop starts at epoch
start_epoch + 1 = 1 with fuel n_epochs). -/
def train_epochs (cfg : Cfg) (scores : Nat → Rat) (isMaster : Bool) :
    Nat → Nat → ESState → List Ev
  | 0, _, _ => []
  | Nat.succ fuel, epoch, s =>
    let r := validate_and_save cfg epoch (scores epoch) isMaster s
    train_phase_events ++ r.events ++
      (if r.shouldStop || epoch == cfg.n_epochs then []
       else train_epochs cfg scores isMaster fuel (epoch + 1) r.state)

/-- PtTrainer.train after setup (pt_trainer.py lines 180-237): the epoch
loop, then self.cleanup() — dist.destroy_process_group, line 142 — and the
deliberate sys.exit with an explicit message, lines 235-237. Both loop exits
(early stop and reaching n_epochs) fall through to the same tail. -/
def train_run (cfg : Cfg) (scores : Nat → Rat) (isMaster : Bool) : List Ev :=
  train_epochs cfg scores isMaster cfg.n_epochs 1 { best := none, numRuns := 0 } ++
    [Ev.cleanup, Ev.exitMsg]

/-- Steps of the setup phase of PtTrainer.train before the epoch loop
(pt_trainer.py lines 160-178), in program order. raiseNotSupported stands
for the NotImplementedError of load_pretrained; it appears in no trace
because the call at lines 173-174 is commented out. -/
inductive SetupStep
  | buildModel
  | getOptimizer
  | raiseNotSupported
  | initProcessGroup
  | setDevice
  | moveOptimizerToDevice
  | defineDataloader
deriving DecidableEq

/-- PtTrainer.load_pretrained (pt_trainer.py lines 157-158): unconditionally
raises NotImplementedError with message Not yet. -/
def load_pretrained : Except String Unit := Except.error "Not yet"

/-- Setup phase of PtTrainer.train (pt_trainer.py lines 170-178): build the
model, build the optimizer, (the load_pretrained call is commented out),
init the process group, bind the device and wrap in DDP; inside set_device
(lines 132-136) the optimizer state is moved to the device when
load_from_pretrained is set; finally build the dataloaders. No step raises. -/
def train_setup (load_from_pretrained : Bool) : List SetupStep :=
  [SetupStep.buildModel, SetupStep.getOptimizer, SetupStep.initProcessGroup,
   SetupStep.setDevice] ++
  (if load_from_pretrained then [SetupStep.moveOptimizerToDevice] else []) ++
  [SetupStep.defineDataloader]

/-- drop_last policy of PtTrainer.get_dataloader (pt_trainer.py lines
96-99): the training split drops the remainder, the validation split keeps
it. -/
def drop_last (split : String) : Bool := split == "train"

/-- Modelled from the spec: the distributed sampler
(torch.utils.data.distributed.DistributedSampler, not part of this
repository; PtTrainer.get_dataloader only selects its drop_last flag).
Per spec section 4.2, with drop_last each worker receives floor(M/N)
items (the remainder is dropped); without it each worker receives
ceil(M/N) items, the shards padded so the whole dataset stays covered. -/
def num_samples (M N : Nat) (dropLast : Bool) : Nat :=
  if dropLast then M / N else (M + N - 1) / N

/-- Modelled from the spec: the shard a rank receives from the permuted
index list perm of the epoch: the padded index list is sampled with stride
N starting at the rank, num_samples items per rank. When dropping the
remainder the pad is empty and only the first N * floor(M/N) positions are
reached; when keeping it the list is padded by wrapping around to the
front. -/
def shard (perm : List Nat) (N rank : Nat) (dropLast : Bool) : List Nat :=
  let M := perm.length
  let total := N * num_samples M N dropLast
  let padded := perm ++ perm.take (total - M)
  (List.range (num_samples M N dropLast)).map (fun i => padded.getD (rank + i * N) 0)

/-- A concrete run configuration used for concrete evaluations: patience 2,
accumulation 4, five epochs. -/
def cfg0 : Cfg :=
  { save_dir := "checkpoints"
    exp_name := "gearnet"
    save_pfx := "pt"
    patience := 2
    accumulation := 4
    n_epochs := 5
    model_state := 11
    optimizer_state := 22
    args_id := 33 }

/-- cfg0 with early stopping disabled (patience 0). -/
def cfg_p0 : Cfg := { cfg0 with patience := 0 }

/-- The validation-loss sequence of the early-stopping scenario in the spec:
0.9, 0.8, 0.85, 0.86, 0.87 over five consecutive epochs. -/
def c2_scores : List Rat := [9/10, 4/5, 17/20, 43/50, 87/100]

/-- The five per-epoch results of validate_and_save on the coordinator for
that scenario, starting from a fresh helper state. -/
def c2_run : List VSResult :=
  run_validate_epochs cfg0 true c2_scores 1 { best := none, numRuns := 0 }

/-
  Theorems.
-/

/-- Claim C1: for every accumulation factor K at least 1 and every zero-based
step index idx, the training loop enters the no_sync scope exactly when
(idx + 1) mod K is nonzero, performs the optimizer update and gradient reset
exactly when (idx + 1) mod K is zero (that is, exactly when synchronization
occurred), and for K = 4 and idx = 0..7 the synchronization flags are
[F, F, F, T, F, F, F, T]. -/
theorem c1_grad_accum (K idx : Nat) (hK : 1 ≤ K) :
    (grad_no_sync K idx = true ↔ (idx + 1) % K ≠ 0) ∧
    (optimizer_update K idx = true ↔ (idx + 1) % K = 0) ∧
    (optimizer_update K idx = !grad_no_sync K idx) ∧
    (List.range 8).map (fun i => !grad_no_sync 4 i) =
      [false, false, false, true, false, false, false, true] := by
  refine ⟨?_, ?_, ?_, by decide⟩
  · simp [grad_no_sync]
  · simp [optimizer_update]
  · simp [grad_no_sync, optimizer_update, bne, Bool.not_not]

/-- Witness for C1 at K = 4, idx = 3. -/
theorem c1_grad_accum_witness :
    1 ≤ 4 ∧
    ((grad_no_sync 4 3 = true ↔ (3 + 1) % 4 ≠ 0) ∧
     (optimizer_update 4 3 = true ↔ (3 + 1) % 4 = 0) ∧
     (optimizer_update 4 3 = !grad_no_sync 4 3) ∧
     (List.range 8).map (fun i => !grad_no_sync 4 i) =
       [false, false, false, true, false, false, false, true]) :=
  ⟨by decide, c1_grad_accum 4 3 (by decide)⟩

/-- Claim C2 (counterexample): with patience 2, lower-is-better and
validation losses [0.9, 0.8, 0.85, 0.86, 0.87], the coordinator does NOT
write a checkpoint exactly once: prev_best is read at line 300 after
should_stop_early has already recorded the new best, so the write condition
at line 309 holds on every improving epoch — the checkpoint is written twice,
at epochs 1 and 2. -/
theorem c2_counterexample :
    c2_run.countP (fun r => r.saves) ≠ 1 ∧
    c2_run.map (fun r => r.saves) = [true, true, false, false, false] := by
  have hmap : c2_run.map (fun r => r.saves) = [true, true, false, false, false] := by
    norm_num [c2_run, c2_scores, cfg0, run_validate_epochs, validate_and_save,
      should_stop_early, is_better]
  have hcnt : c2_run.countP (fun r => r.saves) =
      (c2_run.map (fun r => r.saves)).countP (fun b => b) := by
    rw [List.countP_map]
    rfl
  refine ⟨?_, hmap⟩
  rw [hcnt, hmap]
  decide

/-- Claim C2 (amended): with patience 2, lower-is-better and validation
losses [0.9, 0.8, 0.85, 0.86, 0.87], validate_and_save returns
should_stop = False for the first four epochs and True at the fifth, and the
coordinator writes a checkpoint exactly at the two improving epochs 1 and 2
(the best-recording epochs), not once. -/
theorem c2_amended :
    c2_run.map (fun r => r.shouldStop) = [false, false, false, false, true] ∧
    c2_run.map (fun r => r.saves) = [true, true, false, false, false] := by
  constructor <;>
    norm_num [c2_run, c2_scores, cfg0, run_validate_epochs, validate_and_save,
      should_stop_early, is_better]

/-- Claim C3 (counterexample): with world size 2, rank 0 is not the
coordinator, yet its execution of validate_and_save still invokes the
early-stopping helper (line 298 is not guarded by the MASTER flag): the
stop/save decision is NOT computed exactly once by the coordinating worker
with the others adopting the outcome — every worker re-derives it. -/
theorem c3_counterexample :
    is_master 0 2 = false ∧
    Ev.helperCall ∈
      (rank_validate_and_save cfg0 1 [[1/2, 1/4], [3/4]] 0 2
        { best := none, numRuns := 0 }).events := by
  constructor
  · decide
  · simp [rank_validate_and_save, validate_and_save, validate_events]

/-- Claim C3 (amended): in every epoch each worker computes the
stop/continue and save/skip decision itself, but from the globally reduced
validation metric that every rank receives identically, so the derived stop
decision and helper state are the same on every rank: the decision is
consistent across workers because each re-derives it from the same global
value, not because the coordinator computes it once and the others adopt
it. -/
theorem c3_amended (cfg : Cfg) (epoch : Nat) (locals : List (List Rat))
    (s : ESState) (r r' W : Nat) :
    (rank_validate_and_save cfg epoch locals r W s).shouldStop =
      (rank_validate_and_save cfg epoch locals r' W s).shouldStop ∧
    (rank_validate_and_save cfg epoch locals r W s).state =
      (rank_validate_and_save cfg epoch locals r' W s).state ∧
    Ev.helperCall ∈ (rank_validate_and_save cfg epoch locals r W s).events := by
  refine ⟨rfl, rfl, ?_⟩
  simp [rank_validate_and_save, validate_and_save, validate_events]

/-- Claim C4: whenever a rank writes a checkpoint in validate_and_save, that
rank is the coordinator (rank equal to world_size - 1), and the globally
reduced validation score of the epoch equals or improves upon (here,
lower-is-better: is at most) the best score seen before this epoch — or no
prior best existed. -/
theorem c4_save_guard (cfg : Cfg) (epoch : Nat) (locals : List (List Rat))
    (rank W : Nat) (s : ESState)
    (h : (rank_validate_and_save cfg epoch locals rank W s).saves = true) :
    rank = W - 1 ∧
    (s.best = none ∨ ∃ b, s.best = some b ∧ reduce_global locals ≤ b) := by
  unfold rank_validate_and_save validate_and_save at h
  simp only [Bool.and_eq_true] at h
  obtain ⟨hm, hcond⟩ := h
  refine ⟨by simpa [is_master] using hm, ?_⟩
  rcases hb : s.best with _ | b
  · exact Or.inl rfl
  · refine Or.inr ⟨b, rfl, ?_⟩
    simp only [should_stop_early, hb] at hcond
    by_cases hlt : is_better BetterOrder.lower (reduce_global locals) b
    · exact le_of_lt (by simpa [is_better] using hlt)
    · simp [hlt] at hcond
      exact le_of_eq hcond.symm

/-- Witness for C4: with world size 2, rank 1 (the coordinator) and a
validation loss tying the recorded best, a checkpoint write occurs and the
guard holds. -/
theorem c4_save_guard_witness :
    (rank_validate_and_save cfg0 1 [[1/2]] 1 2
      { best := some (1/2), numRuns := 0 }).saves = true ∧
    (1 = 2 - 1 ∧
      (({ best := some (1/2), numRuns := 0 } : ESState).best = none ∨
        ∃ b, ({ best := some (1/2), numRuns := 0 } : ESState).best = some b ∧
          reduce_global [[1/2]] ≤ b)) := by
  have hs : (rank_validate_and_save cfg0 1 [[1/2]] 1 2
      { best := some (1/2), numRuns := 0 }).saves = true := by
    norm_num [rank_validate_and_save, validate_and_save, should_stop_early,
      is_better, is_master, reduce_global]
  exact ⟨hs, c4_save_guard cfg0 1 [[1/2]] 1 2 _ hs⟩

/-- Claim C5: when patience is configured as 0, validate_and_save never
returns should_stop = True, for every sequence of validation scores of any
length: early stopping by patience is unconditionally suppressed (lines
302-303 force the flag to False). -/
theorem c5_patience_zero_never_stops (cfg : Cfg) (hp : cfg.patience = 0)
    (isMaster : Bool) :
    ∀ (scores : List Rat) (epoch : Nat) (s : ESState),
      ∀ r ∈ run_validate_epochs cfg isMaster scores epoch s,
        r.shouldStop = false := by
  intro scores
  induction scores with
  | nil =>
    intro epoch s r hr
    simp [run_validate_epochs] at hr
  | cons l ls ih =>
    intro epoch s r hr
    rw [run_validate_epochs] at hr
    rcases List.mem_cons.mp hr with h | h
    · subst h
      simp [validate_and_save, hp]
    · exact ih (epoch + 1) _ r h

/-- Witness for C5: with patience 0 and the single-score sequence [0.9],
the epoch result carries should_stop = false. -/
theorem c5_patience_zero_never_stops_witness :
    cfg_p0.patience = 0 ∧
    (validate_and_save cfg_p0 1 (9/10) true
      { best := none, numRuns := 0 }).shouldStop = false := by
  refine ⟨rfl, c5_patience_zero_never_stops cfg_p0 rfl true [9/10] 1
    { best := none, numRuns := 0 } _ ?_⟩
  rw [run_validate_epochs]
  exact List.mem_cons_self _ _

/-- Claim C6: every checkpoint write in validate_and_save goes to the single
path save_dir/exp_name_savePfx_best.pt — the path does not depend on the
epoch or the score, so at most one best checkpoint file exists per run,
overwritten on each improvement — and its contents are exactly the four
fields model_state_dict, optimizer_state_dict, epochs (the current epoch
index) and args (the full run configuration). -/
theorem c6_checkpoint_shape (cfg : Cfg) (epoch : Nat) (validLoss : Rat)
    (isMaster : Bool) (s : ESState) (p : String) (c : CkptRecord)
    (h : Ev.save p c ∈ (validate_and_save cfg epoch validLoss isMaster s).events) :
    p = checkpoint_path cfg.save_dir cfg.exp_name cfg.save_pfx ∧
    c = { model_state_dict := cfg.model_state
          optimizer_state_dict := cfg.optimizer_state
          epochs := epoch
          args := cfg.args_id } := by
  simp only [validate_and_save] at h
  rcases List.mem_append.mp h with h1 | h2
  · exact absurd h1 (by simp [validate_events])
  · split at h2
    · rw [List.mem_singleton] at h2
      rw [Ev.save.injEq] at h2
      exact ⟨h2.1, h2.2⟩
    · exact absurd h2 (List.not_mem_nil _)

/-- Witness for C6: a first-epoch validation (no prior best) makes the
coordinator write, and the written path and record have the stated shape. -/
theorem c6_checkpoint_shape_witness :
    (Ev.save (checkpoint_path cfg0.save_dir cfg0.exp_name cfg0.save_pfx)
        { model_state_dict := cfg0.model_state
          optimizer_state_dict := cfg0.optimizer_state
          epochs := 3
          args := cfg0.args_id }
      ∈ (validate_and_save cfg0 3 (1/2) true { best := none, numRuns := 0 }).events) ∧
    (checkpoint_path cfg0.save_dir cfg0.exp_name cfg0.save_pfx =
        checkpoint_path cfg0.save_dir cfg0.exp_name cfg0.save_pfx ∧
      ({ model_state_dict := cfg0.model_state
         optimizer_state_dict := cfg0.optimizer_state
         epochs := 3
         args := cfg0.args_id } : CkptRecord) =
        { model_state_dict := cfg0.model_state
          optimizer_state_dict := cfg0.optimizer_state
          epochs := 3
          args := cfg0.args_id }) := by
  have hmem : Ev.save (checkpoint_path cfg0.save_dir cfg0.exp_name cfg0.save_pfx)
      { model_state_dict := cfg0.model_state
        optimizer_state_dict := cfg0.optimizer_state
        epochs := 3
        args := cfg0.args_id }
      ∈ (validate_and_save cfg0 3 (1/2) true { best := none, numRuns := 0 }).events := by
    simp [validate_and_save, validate_events, should_stop_early]
  exact ⟨hmem, c6_checkpoint_shape cfg0 3 (1/2) true _ _ _ hmem⟩

/-- Claim C7 (counterexample): with load_from_pretrained requested (True),
the setup phase of train raises no not-supported error at all — the call to
load_pretrained at lines 173-174 is commented out, so the program silently
proceeds to training without loading a checkpoint. -/
theorem c7_counterexample :
    SetupStep.raiseNotSupported ∉ train_setup true := by decide

/-- Claim C7 (amended): the load_pretrained method does raise an explicit
not-supported (NotImplementedError, message Not yet) signal, but train never
invokes it: for either value of the resume flag the setup phase contains no
raise and runs to completion (its last step builds the dataloaders); the
only effect of the flag is moving optimizer state to the device inside
set_device. -/
theorem c7_amended :
    load_pretrained = Except.error "Not yet" ∧
    ∀ lfp : Bool,
      SetupStep.raiseNotSupported ∉ train_setup lfp ∧
      (train_setup lfp).getLast? = some SetupStep.defineDataloader := by
  refine ⟨rfl, ?_⟩
  intro lfp
  cases lfp <;> exact ⟨by decide, by decide⟩

/-- Claim C8: for every dataset permutation, world size and pair of ranks,
the training-split shard (drop_last = True) gives every worker the same
number of items, while the validation-split shard (drop_last = False)
retains the remainder: every dataset element is covered by some worker's
validation shard. -/
theorem c8_shard_policy (perm : List Nat) (N i j : Nat) (hN : 0 < N) :
    (shard perm N i (drop_last "train")).length =
      (shard perm N j (drop_last "train")).length ∧
    ∀ x ∈ perm, ∃ r, r < N ∧ x ∈ shard perm N r (drop_last "valid") := by
  constructor
  · simp [shard]
  · intro x hx
    obtain ⟨p, hp, hgx⟩ := List.mem_iff_getElem.mp hx
    refine ⟨p % N, Nat.mod_lt _ hN, ?_⟩
    have hvalid : drop_last "valid" = false := by decide
    rw [hvalid]
    simp only [shard]
    refine List.mem_map.mpr ⟨p / N, List.mem_range.mpr ?_, ?_⟩
    · have hMpos : 0 < perm.length := Nat.lt_of_le_of_lt (Nat.zero_le p) hp
      have h1 : perm.length + N - 1 = (perm.length - 1) + N := by omega
      have h2 : p / N ≤ (perm.length - 1) / N := Nat.div_le_div_right (by omega)
      simp only [num_samples, Bool.false_eq_true, if_false]
      rw [h1, Nat.add_div_right _ hN]
      omega
    · have hpn : p % N + p / N * N = p := Nat.mod_add_div' p N
      rw [hpn, List.getD_append _ _ _ p hp, List.getD_eq_getElem perm 0 hp, hgx]

/-- Witness for C8: dataset of five indices, world size 2: both training
shards have two items; the validation shards cover all five indices. -/
theorem c8_shard_policy_witness :
    0 < 2 ∧
    ((shard [5, 7, 9, 11, 13] 2 0 (drop_last "train")).length =
        (shard [5, 7, 9, 11, 13] 2 1 (drop_last "train")).length ∧
      ∀ x ∈ [5, 7, 9, 11, 13], ∃ r, r < 2 ∧
        x ∈ shard [5, 7, 9, 11, 13] 2 r (drop_last "valid")) :=
  ⟨by decide, c8_shard_policy [5, 7, 9, 11, 13] 2 0 1 (by decide)⟩

/-- The event trace of one validate_and_save call never contains the
process-group destroy event. -/
theorem cleanup_not_mem_vs (cfg : Cfg) (epoch : Nat) (l : Rat) (m : Bool)
    (s : ESState) : Ev.cleanup ∉ (validate_and_save cfg epoch l m s).events := by
  simp only [validate_and_save]
  intro h
  rcases List.mem_append.mp h with h1 | h2
  · exact absurd h1 (by simp [validate_events])
  · split at h2
    · exact absurd h2 (by simp)
    · exact absurd h2 (List.not_mem_nil _)

/-- The epoch loop itself never emits the process-group destroy event: it is
emitted only by the tail that follows the loop. -/
theorem cleanup_not_mem_train_epochs (cfg : Cfg) (scores : Nat → Rat)
    (isMaster : Bool) :
    ∀ (fuel epoch : Nat) (s : ESState),
      Ev.cleanup ∉ train_epochs cfg scores isMaster fuel epoch s := by
  intro fuel
  induction fuel with
  | zero =>
    intro epoch s
    simp [train_epochs]
  | succ n ih =>
    intro epoch s
    rw [train_epochs]
    intro h
    rcases List.mem_append.mp h with h1 | h2
    · rcases List.mem_append.mp h1 with h3 | h4
      · exact absurd h3 (by simp [train_phase_events])
      · exact absurd h4 (cleanup_not_mem_vs cfg epoch (scores epoch) isMaster s)
    · split at h2
      · exact absurd h2 (List.not_mem_nil _)
      · exact absurd h2 (ih (epoch + 1) _)

/-- Claim C9: for every configuration and score sequence, on every exit of
the training loop — by the early-stop decision or by reaching the maximum
epoch count — the event trace of train decomposes as a prefix containing no
destroy event, followed by exactly one process-group destroy and then the
deliberate exit message: destroy is invoked exactly once, after the last
collective operation (all barriers and gathers lie in the prefix), before
the process terminates with its explicit message. -/
theorem c9_cleanup_once (cfg : Cfg) (scores : Nat → Rat) (isMaster : Bool) :
    ∃ pre, train_run cfg scores isMaster = pre ++ [Ev.cleanup, Ev.exitMsg] ∧
      Ev.cleanup ∉ pre ∧
      (train_run cfg scores isMaster).count Ev.cleanup = 1 := by
  refine ⟨train_epochs cfg scores isMaster cfg.n_epochs 1
    { best := none, numRuns := 0 }, rfl, ?_, ?_⟩
  · exact cleanup_not_mem_train_epochs cfg scores isMaster cfg.n_epochs 1 _
  · rw [train_run, List.count_append]
    rw [List.count_eq_zero.mpr
      (cleanup_not_mem_train_epochs cfg scores isMaster cfg.n_epochs 1 _)]
    decide

/-- The hidden-state update of the early-stopping helper does not depend on
the patience value: patience only gates the returned stop flag. -/
theorem should_stop_early_state_indep (p q : Nat) (l : Rat) (o : BetterOrder)
    (s : ESState) :
    (should_stop_early p l o s).2 = (should_stop_early q l o s).2 := by
  cases hb : s.best <;> simp only [should_stop_early, hb]
  split <;> rfl

/-- Every execution of validate_and_save invokes the early-stopping helper:
the call at line 298 is unconditional. -/
theorem helperCall_mem_vs (cfg : Cfg) (epoch : Nat) (l : Rat) (m : Bool)
    (s : ESState) :
    Ev.helperCall ∈ (validate_and_save cfg epoch l m s).events := by
  simp [validate_and_save, validate_events]

/-- Setting patience to 0 changes only the stop flag of one
validate_and_save call: the save decision, the resulting helper state and
the whole event trace are unchanged, and the stop flag is false. -/
theorem validate_and_save_patience_zero (cfg : Cfg) (epoch : Nat)
    (l : Rat) (m : Bool) (s : ESState) :
    (validate_and_save { cfg with patience := 0 } epoch l m s).saves =
      (validate_and_save cfg epoch l m s).saves ∧
    (validate_and_save { cfg with patience := 0 } epoch l m s).state =
      (validate_and_save cfg epoch l m s).state ∧
    (validate_and_save { cfg with patience := 0 } epoch l m s).events =
      (validate_and_save cfg epoch l m s).events ∧
    (validate_and_save { cfg with patience := 0 } epoch l m s).shouldStop = false := by
  have hst := should_stop_early_state_indep 0 cfg.patience l BetterOrder.lower s
  simp only [validate_and_save]
  rw [hst]
  exact ⟨rfl, rfl, rfl, rfl⟩

/-- Claim C10: configuring patience as 0 changes only the returned stop flag
of validate_and_save — forced to False after the fact — while, over any
score sequence, the early-stopping helper is still invoked every epoch, the
recorded best score evolves exactly as with any other patience value, and
the checkpoint-write decisions (and whole event traces) are identical to
the run with the original patience. -/
theorem c10_patience_zero_frame (cfg : Cfg) (isMaster : Bool) :
    ∀ (scores : List Rat) (epoch : Nat) (s : ESState),
      (run_validate_epochs { cfg with patience := 0 } isMaster scores epoch s).map
          (fun r => r.saves) =
        (run_validate_epochs cfg isMaster scores epoch s).map (fun r => r.saves) ∧
      (run_validate_epochs { cfg with patience := 0 } isMaster scores epoch s).map
          (fun r => r.state) =
        (run_validate_epochs cfg isMaster scores epoch s).map (fun r => r.state) ∧
      (run_validate_epochs { cfg with patience := 0 } isMaster scores epoch s).map
          (fun r => r.events) =
        (run_validate_epochs cfg isMaster scores epoch s).map (fun r => r.events) ∧
      (run_validate_epochs { cfg with patience := 0 } isMaster scores epoch s).all
          (fun r => !r.shouldStop) = true ∧
      (run_validate_epochs { cfg with patience := 0 } isMaster scores epoch s).all
          (fun r => decide (Ev.helperCall ∈ r.events)) = true := by
  intro scores
  induction scores with
  | nil =>
    intro epoch s
    simp [run_validate_epochs]
  | cons l ls ih =>
    intro epoch s
    obtain ⟨h1, h2, h3, h4⟩ := validate_and_save_patience_zero cfg epoch l isMaster s
    simp only [run_validate_epochs, List.map_cons, List.all_cons]
    rw [h1, h2, h3, h4]
    obtain ⟨ih1, ih2, ih3, ih4, ih5⟩ :=
      ih (epoch + 1) (validate_and_save cfg epoch l isMaster s).state
    refine ⟨by rw [ih1], by rw [ih2], by rw [ih3], by simp [ih4], ?_⟩
    simp only [ih5, Bool.and_true]
    simp [helperCall_mem_vs]

end GearNet
